import Mathlib

/-!
Shallow embedding of src/src/data/program_configuration.js (mapbox-gl-js).

JavaScript numbers are modelled as rationals (every arithmetic operation the
module performs on them is exact on the inputs the claims quantify over), the
running "statistics.max" field, which starts at -Infinity, as "WithBot ℚ" with
-Infinity = ⊥ and Math.max = max. Struct arrays are lists of entries, one entry
per emplaceBack call; GPU state is an explicit record threaded through upload
and destroy. Fallible evaluation (the module can raise ReferenceError and
TypeError) is modelled with Except.
-/

namespace MapboxGL

/-- A 4-channel color value (channels are floats in [0,1] in the source). -/
structure Color where
  r : ℚ
  g : ℚ
  b : ℚ
  a : ℚ
deriving DecidableEq

/-- A dynamically typed JavaScript value as produced by expression evaluation:
the module only ever treats such a value as a number or as a Color. -/
inductive JVal where
  | num (x : ℚ)
  | color (c : Color)
deriving DecidableEq

/-- Reading a JVal as a number. Well-typed binders (type ≠ "color") always
evaluate to a number; the fallback value stands in for the NaN that JavaScript
arithmetic would produce on a type mismatch, and every theorem below supplies
the well-typed case as a hypothesis, so the fallback is never relied on. -/
def JVal.toNum : JVal → ℚ
  | .num x => x
  | .color _ => 0

/-- Reading a JVal as a Color; same convention as JVal.toNum for the fallback. -/
def JVal.toColor : JVal → Color
  | .color c => c
  | .num _ => { r := 0, g := 0, b := 0, a := 0 }

/-- The globals object passed to expression evaluation, e.g. the zoom in
evaluate({zoom: 0}, feature). -/
structure GlobalProperties where
  zoom : ℚ
deriving DecidableEq

/-- Errors the module can raise at runtime. -/
inductive JsError where
  | referenceError (name : String) -- reading an identifier that is not in scope
  | typeError (msg : String)
deriving DecidableEq

/-- Clamp to an 8-bit integer: Math.floor followed by clamp(x, 0, 255).
Part of the model of packUint8ToFloat, see below. -/
def clampUint8 (x : ℚ) : ℤ :=
  max 0 (min 255 ⌊x⌋)

/-- Modelled from the spec: packUint8ToFloat, imported on line 3 of
program_configuration.js from src/shaders/encode_attribute.js, a file of this
repository that is not included under src/. Spec section 4.1: "Each float packs
two 8-bit channels (0-255 ...) into a single transport value whose integer
decomposition recovers both bytes (e.g. value = channelA*256 + channelB ...)";
the channels are quantized to integers in [0,255]. -/
def packUint8ToFloat (a b : ℚ) : ℚ :=
  ((256 * clampUint8 a + clampUint8 b : ℤ) : ℚ)

/-- packColor (lines 22-27): packs (r,g) and (b,a), each channel scaled by 255. -/
def packColor (color : Color) : ℚ × ℚ :=
  (packUint8ToFloat (255 * color.r) (255 * color.g),
   packUint8ToFloat (255 * color.b) (255 * color.a))

/-- The integer decomposition of a packed float named by claim C6:
value = channelA*256 + channelB, recovered as (value / 256, value % 256). -/
def decodeChannels (v : ℚ) : ℤ × ℤ :=
  (⌊v⌋ / 256, ⌊v⌋ % 256)

/-- The struct-array layout classes that program_configuration.js names:
the three imported from ./array_types on line 7 and the two line-pattern
layouts that getLayoutException mentions. -/
inductive Layout where
  | structArrayLayout1f4
  | structArrayLayout2f8
  | structArrayLayout4f16
  | linePatternSourceExpressionLayoutArray
  | linePatternCompositeExpressionLayoutArray
deriving DecidableEq

/-- Module-scope resolution of the layout-class identifiers used inside
program_configuration.js. The import on line 7 brings exactly
StructArrayLayout1f4, StructArrayLayout2f8 and StructArrayLayout4f16 into
scope; LinePatternSourceExpressionLayoutArray and
LinePatternCompositeExpressionLayoutArray are referenced by getLayoutException
(lines 446-447) but appear in no import and no declaration of the module, so
evaluating either identifier raises a ReferenceError. -/
def resolveLayoutIdent (name : String) : Except JsError Layout :=
  if name = "StructArrayLayout1f4" then .ok .structArrayLayout1f4
  else if name = "StructArrayLayout2f8" then .ok .structArrayLayout2f8
  else if name = "StructArrayLayout4f16" then .ok .structArrayLayout4f16
  else .error (.referenceError name)

/-- The value of one entry of the propertyExceptions table of
getLayoutException: a layout per binder kind. -/
structure LayoutException where
  source : Layout
  composite : Layout
deriving DecidableEq

/-- Property lookup layoutException[binderType] on an exception-table entry. -/
def LayoutException.get (e : LayoutException) (binderType : String) : Option Layout :=
  if binderType = "source" then some e.source
  else if binderType = "composite" then some e.composite
  else none

/-- getLayoutException (lines 443-452). The propertyExceptions object literal is
rebuilt on every call, and building it evaluates both line-pattern layout
identifiers, so identifier resolution happens before the table lookup. -/
def getLayoutException (property : String) : Except JsError (Option LayoutException) := do
  let src ← resolveLayoutIdent "LinePatternSourceExpressionLayoutArray"
  let comp ← resolveLayoutIdent "LinePatternCompositeExpressionLayoutArray"
  pure (if property = "line-pattern" then some { source := src, composite := comp } else none)

/-- The defaultLayouts table of layoutType (lines 455-464): indexing with a type
other than "color" / "number" yields undefined (none). -/
def defaultLayouts (type : String) : Option (String → Option Layout) :=
  if type = "color" then
    some (fun binderType =>
      if binderType = "source" then some .structArrayLayout2f8
      else if binderType = "composite" then some .structArrayLayout4f16
      else none)
  else if type = "number" then
    some (fun binderType =>
      if binderType = "source" then some .structArrayLayout1f4
      else if binderType = "composite" then some .structArrayLayout2f8
      else none)
  else none

/-- layoutType (lines 454-469): layoutException && layoutException[binderType]
|| defaultLayouts[type][binderType]. Reading [binderType] off an undefined
defaultLayouts[type] raises a TypeError; the whole expression may also produce
undefined (none), in which case the caller's constructor call fails. -/
def layoutType (property type binderType : String) : Except JsError (Option Layout) := do
  let layoutException ← getLayoutException property
  match layoutException.bind (fun e => e.get binderType) with
  | some l => pure (some l)
  | none =>
    match defaultLayouts type with
    | none => .error (.typeError "cannot read property of undefined in defaultLayouts")
    | some row => pure (row binderType)

/-- One entry of a paint vertex struct array: the floats passed to a single
emplaceBack call. -/
abbrev PaintEntry := List ℚ

/-- A member of a paint vertex attribute layout (util/struct_array
StructArrayMember), as computed by the binder constructors. -/
structure StructArrayMember where
  name : String
  type : String
  components : ℕ
  offset : ℕ
deriving DecidableEq

/-- JavaScript string.match(/pattern/) against a literal pattern, used as a
boolean: true when pat occurs as a substring of s. -/
def jsMatch (s pat : String) : Bool :=
  (s.splitOn pat).length != 1

/-- GPU-side state: a counter for fresh vertex buffer handles, the list of live
buffers, and the list of buffers that have been released. Buffer handles are
natural numbers. -/
structure GpuState where
  nextId : ℕ
  live : List ℕ
  destroyed : List ℕ
deriving DecidableEq

/-- context.createVertexBuffer(...): allocates a fresh buffer handle. -/
def GpuState.createVertexBuffer (g : GpuState) : ℕ × GpuState :=
  (g.nextId, { g with nextId := g.nextId + 1, live := g.live ++ [g.nextId] })

/-- vertexBuffer.destroy(): releases the handle. -/
def GpuState.deleteBuffer (g : GpuState) (id : ℕ) : GpuState :=
  { g with live := g.live.filter (fun x => x != id), destroyed := g.destroyed ++ [id] }

/-- A GL uniform write: uniform1f carries one float, uniform4f four. -/
inductive UniformValue where
  | f1 (x : ℚ)
  | f4 (r g b a : ℚ)
deriving DecidableEq

/-- A uniform write is keyed by the uniform name looked up in
program.uniforms. -/
abbrev UniformWrite := String × UniformValue

/-- The currentValue argument of setUniforms: a PossiblyEvaluatedPropertyValue,
which either holds a concrete constant or not. -/
structure PossiblyEvaluatedPropertyValue where
  constantValue : Option JVal

/-- currentValue.constantOr(value): the concrete constant when there is one,
otherwise the fallback argument. -/
def PossiblyEvaluatedPropertyValue.constantOr (pv : PossiblyEvaluatedPropertyValue)
    (value : JVal) : JVal :=
  pv.constantValue.getD value

/-! ### ConstantBinder (lines 71-107) -/

/-- ConstantBinder: a constant property bound as a uniform; no buffer. -/
structure ConstantBinder where
  value : JVal
  names : List String
  type : String
  statisticsMax : WithBot ℚ

/-- The ConstantBinder constructor (lines 77-82): statistics = { max: -Infinity }. -/
def mkConstantBinder (value : JVal) (names : List String) (type : String) : ConstantBinder :=
  { value := value, names := names, type := type, statisticsMax := ⊥ }

/-- defines() (lines 84-86). -/
def ConstantBinder.defines (b : ConstantBinder) : List String :=
  b.names.map (fun name => "#define HAS_UNIFORM_u_" ++ name)

/-- populatePaintArray() {} (line 88): a no-op. -/
def ConstantBinder.populatePaintArray (b : ConstantBinder) : ConstantBinder := b

/-- upload() {} (line 89): a no-op. -/
def ConstantBinder.upload (b : ConstantBinder) (g : GpuState) : ConstantBinder × GpuState :=
  (b, g)

/-- destroy() {} (line 90): a no-op. -/
def ConstantBinder.destroy (_b : ConstantBinder) (g : GpuState) : GpuState := g

/-- setUniforms (lines 92-106): resolves the current value with constantOr and
writes one uniform per name, uniform4f for colors and uniform1f otherwise. -/
def ConstantBinder.setUniforms (b : ConstantBinder)
    (currentValue : PossiblyEvaluatedPropertyValue) : List UniformWrite :=
  let value := currentValue.constantOr b.value
  b.names.map (fun name =>
    if b.type = "color" then
      ("u_" ++ name, .f4 value.toColor.r value.toColor.g value.toColor.b value.toColor.a)
    else
      ("u_" ++ name, .f1 value.toNum))

/-! ### SourceExpressionBinder (lines 109-178) -/

variable {F : Type}

/-- SourceExpressionBinder: a feature-only expression bound as one vertex
attribute. The expression field is the evaluate(globals, feature) capability of
the external SourceExpression; F is the (opaque) feature type. -/
structure SourceExpressionBinder (F : Type) where
  expression : GlobalProperties → F → JVal
  names : List String
  type : String
  statisticsMax : WithBot ℚ
  layout : Layout
  paintVertexAttributes : List StructArrayMember
  paintVertexArray : List PaintEntry
  paintVertexBuffer : Option ℕ

/-- The SourceExpressionBinder constructor (lines 119-134): empty paint array,
no GPU buffer, statistics.max = -Infinity, attributes computed from the names
(2 components for color or pattern-matching names, else 1; offset i*8 for
pattern-matching names, else 0). -/
def mkSourceExpressionBinder (expression : GlobalProperties → F → JVal)
    (names : List String) (type : String) (layout : Layout) : SourceExpressionBinder F :=
  { expression := expression, names := names, type := type, statisticsMax := ⊥,
    layout := layout,
    paintVertexAttributes := names.mapIdx (fun i name =>
      { name := "a_" ++ name, type := "Float32",
        components := if type = "color" || jsMatch name "pattern" then 2 else 1,
        offset := if jsMatch name "pattern" then i * 8 else 0 }),
    paintVertexArray := [], paintVertexBuffer := none }

/-- populatePaintArray (lines 140-161): evaluate at {zoom: 0}; for colors,
emplace the two packed floats for each new vertex; otherwise emplace the value
itself and fold it into statistics.max. -/
def SourceExpressionBinder.populatePaintArray (b : SourceExpressionBinder F)
    (length : ℕ) (feature : F) : SourceExpressionBinder F :=
  let start := b.paintVertexArray.length
  let value := b.expression { zoom := 0 } feature
  if b.type = "color" then
    let color := packColor value.toColor
    { b with paintVertexArray := b.paintVertexArray ++
        List.replicate (length - start) [color.1, color.2] }
  else
    { b with
      paintVertexArray := b.paintVertexArray ++
        List.replicate (length - start) [value.toNum],
      statisticsMax := max b.statisticsMax ((value.toNum : ℚ) : WithBot ℚ) }

/-- upload (lines 163-167): the guard "if (this.paintVertexArray)" tests the
array object, which the constructor always creates, so it always holds and a
vertex buffer is always created, empty array or not. -/
def SourceExpressionBinder.upload (b : SourceExpressionBinder F) (g : GpuState) :
    SourceExpressionBinder F × GpuState :=
  let created := g.createVertexBuffer
  ({ b with paintVertexBuffer := some created.1 }, created.2)

/-- destroy (lines 169-173): releases the GPU buffer only when one exists. -/
def SourceExpressionBinder.destroy (b : SourceExpressionBinder F) (g : GpuState) : GpuState :=
  match b.paintVertexBuffer with
  | some buf => g.deleteBuffer buf
  | none => g

/-- setUniforms (lines 175-177): one uniform1f write of 0 keyed by the first
name only; this.names[0] on an empty list is undefined, which the template
string renders as "undefined". -/
def SourceExpressionBinder.setUniforms (b : SourceExpressionBinder F) : List UniformWrite :=
  [("a_" ++ b.names.headD "undefined" ++ "_t", .f1 0)]

/-! ### CompositeExpressionBinder (lines 180-263) -/

/-- The external CompositeExpression capability: evaluate(globals, feature) and
interpolationFactor(zoom, lowerZoom, upperZoom). -/
structure CompositeExpression (F : Type) where
  evaluate : GlobalProperties → F → JVal
  interpolationFactor : ℚ → ℚ → ℚ → ℚ

/-- CompositeExpressionBinder: a feature-and-zoom expression bound as a
(min, max) attribute pair plus an interpolation uniform. -/
structure CompositeExpressionBinder (F : Type) where
  expression : CompositeExpression F
  names : List String
  type : String
  useIntegerZoom : Bool
  zoom : ℚ
  statisticsMax : WithBot ℚ
  layout : Layout
  paintVertexAttributes : List StructArrayMember
  paintVertexArray : List PaintEntry
  paintVertexBuffer : Option ℕ

/-- The CompositeExpressionBinder constructor (lines 192-209): empty paint
array, no GPU buffer, statistics.max = -Infinity, attributes with 4 components
for colors and 2 otherwise, offset 0. -/
def mkCompositeExpressionBinder (expression : CompositeExpression F)
    (names : List String) (type : String) (useIntegerZoom : Bool) (zoom : ℚ)
    (layout : Layout) : CompositeExpressionBinder F :=
  { expression := expression, names := names, type := type,
    useIntegerZoom := useIntegerZoom, zoom := zoom, statisticsMax := ⊥,
    layout := layout,
    paintVertexAttributes := names.map (fun name =>
      { name := "a_" ++ name, type := "Float32",
        components := if type = "color" then 4 else 2,
        offset := 0 }),
    paintVertexArray := [], paintVertexBuffer := none }

/-- populatePaintArray (lines 215-238): evaluate at {zoom: this.zoom} and
{zoom: this.zoom + 1}; for colors, emplace the four packed floats of both
bounds for each new vertex; otherwise emplace the (min, max) pair and fold both
bounds into statistics.max via Math.max(this.statistics.max, min, max). -/
def CompositeExpressionBinder.populatePaintArray (b : CompositeExpressionBinder F)
    (length : ℕ) (feature : F) : CompositeExpressionBinder F :=
  let start := b.paintVertexArray.length
  let minValue := b.expression.evaluate { zoom := b.zoom } feature
  let maxValue := b.expression.evaluate { zoom := b.zoom + 1 } feature
  if b.type = "color" then
    let minColor := packColor minValue.toColor
    let maxColor := packColor maxValue.toColor
    { b with paintVertexArray := b.paintVertexArray ++
        List.replicate (length - start) [minColor.1, minColor.2, maxColor.1, maxColor.2] }
  else
    { b with
      paintVertexArray := b.paintVertexArray ++
        List.replicate (length - start) [minValue.toNum, maxValue.toNum],
      statisticsMax :=
        max (max b.statisticsMax ((minValue.toNum : ℚ) : WithBot ℚ))
          ((maxValue.toNum : ℚ) : WithBot ℚ) }

/-- upload (lines 240-244): same always-truthy guard as the source binder. -/
def CompositeExpressionBinder.upload (b : CompositeExpressionBinder F) (g : GpuState) :
    CompositeExpressionBinder F × GpuState :=
  let created := g.createVertexBuffer
  ({ b with paintVertexBuffer := some created.1 }, created.2)

/-- destroy (lines 246-250): releases the GPU buffer only when one exists. -/
def CompositeExpressionBinder.destroy (b : CompositeExpressionBinder F) (g : GpuState) : GpuState :=
  match b.paintVertexBuffer with
  | some buf => g.deleteBuffer buf
  | none => g

/-- interpolationFactor (lines 252-258): delegates to the expression with
Math.floor(currentZoom) when useIntegerZoom is set, else the raw zoom,
bracketed by [this.zoom, this.zoom + 1]. -/
def CompositeExpressionBinder.interpolationFactor (b : CompositeExpressionBinder F)
    (currentZoom : ℚ) : ℚ :=
  if b.useIntegerZoom then
    b.expression.interpolationFactor ((⌊currentZoom⌋ : ℤ) : ℚ) b.zoom (b.zoom + 1)
  else
    b.expression.interpolationFactor currentZoom b.zoom (b.zoom + 1)

/-- setUniforms (lines 260-262): one uniform1f write of the interpolation
factor at globals.zoom, keyed by the first name only. -/
def CompositeExpressionBinder.setUniforms (b : CompositeExpressionBinder F)
    (globals : GlobalProperties) : List UniformWrite :=
  [("a_" ++ b.names.headD "undefined" ++ "_t", .f1 (b.interpolationFactor globals.zoom))]

/-! ### The Binder interface (lines 56-69) as a closed variant -/

/-- A Binder is one of the three strategy classes. -/
inductive Binder (F : Type) where
  | constant (b : ConstantBinder)
  | source (b : SourceExpressionBinder F)
  | composite (b : CompositeExpressionBinder F)

/-- The statistics.max field common to the three classes. -/
def Binder.statisticsMax : Binder F → WithBot ℚ
  | .constant b => b.statisticsMax
  | .source b => b.statisticsMax
  | .composite b => b.statisticsMax

/-- The type field ("color" or "number") common to the three classes. -/
def Binder.type : Binder F → String
  | .constant b => b.type
  | .source b => b.type
  | .composite b => b.type

/-- Whether the binder is a ConstantBinder. -/
def Binder.isConstantKind : Binder F → Bool
  | .constant _ => true
  | _ => false

/-- The paintVertexBuffer field: none for a ConstantBinder, which has no
buffer at all. -/
def Binder.paintVertexBufferOpt : Binder F → Option ℕ
  | .constant _ => none
  | .source b => b.paintVertexBuffer
  | .composite b => b.paintVertexBuffer

/-- Virtual dispatch of populatePaintArray. -/
def Binder.populatePaintArray : Binder F → ℕ → F → Binder F
  | .constant b, _, _ => .constant b.populatePaintArray
  | .source b, length, feature => .source (b.populatePaintArray length feature)
  | .composite b, length, feature => .composite (b.populatePaintArray length feature)

/-- Virtual dispatch of upload. -/
def Binder.upload : Binder F → GpuState → Binder F × GpuState
  | .constant b, g => let r := b.upload g; (.constant r.1, r.2)
  | .source b, g => let r := b.upload g; (.source r.1, r.2)
  | .composite b, g => let r := b.upload g; (.composite r.1, r.2)

/-- Virtual dispatch of destroy. None of the destroy methods writes any binder
field, so only the GPU state changes. -/
def Binder.destroy : Binder F → GpuState → GpuState
  | .constant b, g => b.destroy g
  | .source b, g => b.destroy g
  | .composite b, g => b.destroy g

/-- The binder-state-changing operations of the Binder interface. The two
remaining interface methods, defines and setUniforms, read binder fields and
emit shader text or GL uniform writes but never write a binder field (they are
modelled above as functions out of the binder), so a sequence of interface
calls acts on binder state exactly through this operation type. -/
inductive BinderOp (F : Type) where
  | populate (length : ℕ) (feature : F)
  | upload
  | destroy

/-- Whether an operation is a populatePaintArray call. -/
def BinderOp.isPopulate : BinderOp F → Bool
  | .populate _ _ => true
  | _ => false

/-- Apply one operation to a binder and the GPU state. -/
def Binder.applyOp (b : Binder F) (g : GpuState) : BinderOp F → Binder F × GpuState
  | .populate length feature => (b.populatePaintArray length feature, g)
  | .upload => b.upload g
  | .destroy => (b, b.destroy g)

/-- Apply a sequence of operations from left to right. -/
def Binder.applyOps (b : Binder F) (g : GpuState) : List (BinderOp F) → Binder F × GpuState
  | [] => (b, g)
  | op :: rest =>
    let r := b.applyOp g op
    r.1.applyOps r.2 rest

/-! ### ProgramConfiguration (lines 285-387) -/

/-- ProgramConfiguration: one binder per accepted paint property plus the
derived cacheKey. The binders object is keyed by property name; JavaScript
string-keyed objects preserve insertion order, so it is an ordered association
list here. -/
structure ProgramConfiguration (F : Type) where
  binders : List (String × Binder F)
  cacheKey : String

/-- Replace the first occurrence of pat in s (JavaScript string.replace with a
string pattern replaces only the first match). -/
def replaceFirst (s pat rep : String) : String :=
  match s.splitOn pat with
  | [] => s
  | [x] => x
  | x :: y :: rest => x ++ rep ++ String.intercalate pat (y :: rest)

/-- paintAttributeName (lines 424-441): the attribute-name exception table,
falling back to the property with the layer-type prefix stripped and dashes
replaced by underscores. -/
def paintAttributeName (property type : String) : List String :=
  if property = "text-opacity" then ["opacity"]
  else if property = "icon-opacity" then ["opacity"]
  else if property = "text-color" then ["fill_color"]
  else if property = "icon-color" then ["fill_color"]
  else if property = "text-halo-color" then ["halo_color"]
  else if property = "icon-halo-color" then ["halo_color"]
  else if property = "text-halo-blur" then ["halo_blur"]
  else if property = "icon-halo-blur" then ["halo_blur"]
  else if property = "text-halo-width" then ["halo_width"]
  else if property = "icon-halo-width" then ["halo_width"]
  else if property = "line-gap-width" then ["gapwidth"]
  else if property = "line-pattern" then ["pattern_a", "pattern_b", "pattern_size"]
  else [(replaceFirst property (type ++ "-") "").replace "-" "_"]

/-- The possibly-evaluated value of a paint property, as inspected by
createDynamic: value.value.kind is "constant", "source" or anything else
(treated as composite). -/
inductive PossiblyEvaluatedValue (F : Type) where
  | constantKind (value : JVal)
  | sourceKind (expression : GlobalProperties → F → JVal)
  | compositeKind (expression : CompositeExpression F)

/-- One entry of layer.paint._values as seen by createDynamic: either not a
PossiblyEvaluatedPropertyValue at all (skipped), or one, carrying the
property-function flag, declared type and useIntegerZoom flag of its
specification together with the evaluated value. -/
inductive PaintPropertyValue (F : Type) where
  | plain
  | possiblyEvaluated (hasPropertyFunction : Bool) (type : String)
      (useIntegerZoom : Bool) (value : PossiblyEvaluatedValue F)

/-- The slice of a TypedStyleLayer that createDynamic reads: the layer type
(for attribute-name prefix stripping) and the ordered paint property values. -/
structure Layer (F : Type) where
  type : String
  paintValues : List (String × PaintPropertyValue F)

/-- Converts the possibly-undefined result of layoutType into the constructor
argument: calling "new PaintVertexArray()" on undefined raises a TypeError. -/
def requireLayout : Option Layout → Except JsError Layout
  | some l => Except.ok l
  | none => Except.error (.typeError "PaintVertexArray is not a constructor")

/-- The property loop of createDynamic (lines 303-324), processed in insertion
order: filtered-out, non-possibly-evaluated and non-property-function entries
are skipped; the rest get a binder and a cache-key token by kind. -/
def createDynamicLoop (layerType : String) (zoom : ℚ) (filterProperties : String → Bool) :
    List (String × PaintPropertyValue F) →
      Except JsError (List (String × Binder F) × List String)
  | [] => Except.ok ([], [])
  | (property, v) :: rest =>
    if !filterProperties property then
      createDynamicLoop layerType zoom filterProperties rest
    else
      match v with
      | .plain => createDynamicLoop layerType zoom filterProperties rest
      | .possiblyEvaluated hasPropertyFunction type useIntegerZoom value =>
        if !hasPropertyFunction then
          createDynamicLoop layerType zoom filterProperties rest
        else
          let names := paintAttributeName property layerType
          match value with
          | .constantKind cv => do
            let r ← createDynamicLoop layerType zoom filterProperties rest
            Except.ok ((property, Binder.constant (mkConstantBinder cv names type)) :: r.1,
              ("/u_" ++ property) :: r.2)
          | .sourceKind e => do
            let structArrayLayout ← requireLayout (← layoutType property type "source")
            let r ← createDynamicLoop layerType zoom filterProperties rest
            Except.ok
              ((property, Binder.source (mkSourceExpressionBinder e names type structArrayLayout)) :: r.1,
                ("/a_" ++ property) :: r.2)
          | .compositeKind e => do
            let structArrayLayout ← requireLayout (← layoutType property type "composite")
            let r ← createDynamicLoop layerType zoom filterProperties rest
            Except.ok
              ((property,
                Binder.composite
                  (mkCompositeExpressionBinder e names type useIntegerZoom zoom structArrayLayout)) :: r.1,
                ("/z_" ++ property) :: r.2)

/-- createDynamic (lines 299-329): build the binders and key tokens, then
cacheKey = keys.sort().join(''). -/
def ProgramConfiguration.createDynamic (layer : Layer F) (zoom : ℚ)
    (filterProperties : String → Bool) : Except JsError (ProgramConfiguration F) := do
  let r ← createDynamicLoop layer.type zoom filterProperties layer.paintValues
  Except.ok { binders := r.1, cacheKey := String.join (r.2.mergeSort (fun a b => a ≤ b)) }

/-- The loop of populatePaintArrays (lines 331-338): for each binder in order,
call getLayoutException(property); skip the binder when it has an exception
entry, otherwise forward populatePaintArray to it. -/
def populateLoop (length : ℕ) (feature : F) :
    List (String × Binder F) → Except JsError (List (String × Binder F))
  | [] => Except.ok []
  | (property, binder) :: rest => do
    let exception ← getLayoutException property
    let updated :=
      if exception.isSome then (property, binder)
      else (property, binder.populatePaintArray length feature)
    let r ← populateLoop length feature rest
    Except.ok (updated :: r)

/-- populatePaintArrays (lines 331-338). -/
def ProgramConfiguration.populatePaintArrays (pc : ProgramConfiguration F)
    (length : ℕ) (feature : F) : Except JsError (ProgramConfiguration F) := do
  let b ← populateLoop length feature pc.binders
  Except.ok { pc with binders := b }

/-- destroy (lines 382-386): forwards destroy to every binder. -/
def ProgramConfiguration.destroy (pc : ProgramConfiguration F) (g : GpuState) : GpuState :=
  pc.binders.foldl (fun acc entry => entry.2.destroy acc) g

/-! ### Concrete instances used by witnesses and counterexamples -/

/-- A configuration holding one constant binder for the line-width property. -/
def constantOnlyConfig : ProgramConfiguration Unit :=
  { binders := [("line-width", Binder.constant (mkConstantBinder (.num 1) ["width"] "number"))],
    cacheKey := "/u_line-width" }

/-- A layer with a single source-kind data-driven number property. -/
def sourceOnlyLayer : Layer Unit :=
  { type := "line",
    paintValues :=
      [("line-blur", .possiblyEvaluated true "number" false (.sourceKind (fun _ _ => .num 0)))] }

/-- A source binder of number type whose paint array is still empty. -/
def sourceEmptyBinder : SourceExpressionBinder Unit :=
  mkSourceExpressionBinder (fun _ _ => .num 5) ["blur"] "number" .structArrayLayout1f4

/-- A fresh GPU state. -/
def gpu0 : GpuState := { nextId := 0, live := [], destroyed := [] }

/-! ### Claims -/

/-- Claim C1 (code bug): populatePaintArrays is supposed to skip the binders on
the layout-exception list and forward to all others without raising; in fact
its very first getLayoutException call evaluates the unimported identifier
LinePatternSourceExpressionLayoutArray inside the propertyExceptions object
literal, so the call raises a ReferenceError for any configuration with at
least one binder — here a single constant line-width binder. -/
theorem populatePaintArrays_raises_referenceError :
    constantOnlyConfig.populatePaintArrays 3 () =
      Except.error (JsError.referenceError "LinePatternSourceExpressionLayoutArray") := rfl

/-- Claim C4 (code bug): createDynamic is supposed to produce the sorted,
order-independent cacheKey; in fact, as soon as the layer has an accepted
source- or composite-kind property, the layoutType call evaluates
getLayoutException, which raises a ReferenceError on the unimported
LinePatternSourceExpressionLayoutArray identifier, so no cacheKey is produced
at all — here for a layer whose only property is the source-kind line-blur. -/
theorem createDynamic_raises_referenceError :
    ProgramConfiguration.createDynamic sourceOnlyLayer 0 (fun _ => true) =
      Except.error (JsError.referenceError "LinePatternSourceExpressionLayoutArray") := rfl

/-- Claim C5, counterexample: upload on a SourceExpressionBinder whose paint
vertex array is empty still creates a GPU vertex buffer, because the guard
tests the array object (always present), not its length; this falsifies "when
the buffer is empty, no GPU vertex buffer is created". -/
theorem sourceUpload_empty_still_creates_buffer :
    sourceEmptyBinder.paintVertexArray = [] ∧
    (sourceEmptyBinder.upload gpu0).1.paintVertexBuffer = some 0 ∧
    (sourceEmptyBinder.upload gpu0).2.live = [0] :=
  ⟨rfl, rfl, rfl⟩

/-- Claim C5 as amended: upload(context) on a SourceExpressionBinder always
creates a GPU vertex buffer from the paint vertex array, whether or not the
array is empty, because the guard "if (this.paintVertexArray)" tests the array
object, which the constructor always creates. -/
theorem sourceUpload_always_creates_buffer (F : Type) (b : SourceExpressionBinder F)
    (g : GpuState) :
    (b.upload g).1.paintVertexBuffer = some g.nextId ∧
    (b.upload g).2.live = g.live ++ [g.nextId] ∧
    (b.upload g).1.paintVertexArray = b.paintVertexArray :=
  ⟨rfl, rfl, rfl⟩

/-- A composite binder of number type at reference zoom 3, evaluating to the
zoom itself. -/
def compositeNumBinder : CompositeExpressionBinder Unit :=
  mkCompositeExpressionBinder
    { evaluate := fun g _ => .num g.zoom,
      interpolationFactor := fun z lower upper => (z - lower) / (upper - lower) }
    ["width"] "number" false 3 .structArrayLayout2f8

/-- A composite binder with useIntegerZoom = true, reference zoom 14 and a
multi-entry names list. -/
def compositeIntZoomBinder : CompositeExpressionBinder Unit :=
  mkCompositeExpressionBinder
    { evaluate := fun g _ => .num g.zoom,
      interpolationFactor := fun z lower upper => (z - lower) / (upper - lower) }
    ["pattern_a", "pattern_b", "pattern_size"] "number" true 14 .structArrayLayout2f8

/-- A source binder with the multi-entry names list of the line-pattern
property. -/
def sourcePatternBinder : SourceExpressionBinder Unit :=
  mkSourceExpressionBinder (fun _ _ => .num 0) ["pattern_a", "pattern_b", "pattern_size"]
    "number" .linePatternSourceExpressionLayoutArray

/-- Claim C2: CompositeExpressionBinder.populatePaintArray appends one
identical entry per new vertex index from the current length up to
vertexCount: for a numeric binder the pair (min, max) with min evaluated at
{zoom: Z} and max at {zoom: Z+1}, both folded into statistics.max; for a color
binder the four floats packColor(min)[0], packColor(min)[1], packColor(max)[0],
packColor(max)[1]. -/
theorem compositePopulatePaintArray_correct (F : Type) (b : CompositeExpressionBinder F)
    (len : ℕ) (feature : F) :
    (∀ vmin vmax : ℚ, b.type ≠ "color" →
      b.expression.evaluate { zoom := b.zoom } feature = .num vmin →
      b.expression.evaluate { zoom := b.zoom + 1 } feature = .num vmax →
      (b.populatePaintArray len feature).paintVertexArray =
        b.paintVertexArray ++
          List.replicate (len - b.paintVertexArray.length) [vmin, vmax] ∧
      (b.populatePaintArray len feature).statisticsMax =
        max (max b.statisticsMax ((vmin : ℚ) : WithBot ℚ)) ((vmax : ℚ) : WithBot ℚ)) ∧
    (∀ cmin cmax : Color, b.type = "color" →
      b.expression.evaluate { zoom := b.zoom } feature = .color cmin →
      b.expression.evaluate { zoom := b.zoom + 1 } feature = .color cmax →
      (b.populatePaintArray len feature).paintVertexArray =
        b.paintVertexArray ++
          List.replicate (len - b.paintVertexArray.length)
            [(packColor cmin).1, (packColor cmin).2, (packColor cmax).1, (packColor cmax).2]) := by
  constructor
  · intro vmin vmax hty hmin hmax
    simp only [CompositeExpressionBinder.populatePaintArray, hmin, hmax, if_neg hty, JVal.toNum]
    constructor <;> trivial
  · intro cmin cmax hty hmin hmax
    simp only [CompositeExpressionBinder.populatePaintArray, hmin, hmax, if_pos hty, JVal.toColor]

/-- Claim C2, witness: the numeric case at reference zoom 3 on an empty array
with 2 requested vertices. -/
theorem compositePopulatePaintArray_correct_witness :
    (compositeNumBinder.populatePaintArray 2 ()).paintVertexArray = [[3, 4], [3, 4]] ∧
    (compositeNumBinder.populatePaintArray 2 ()).statisticsMax = ((4 : ℚ) : WithBot ℚ) := by
  have hmax4 : compositeNumBinder.expression.evaluate
      { zoom := compositeNumBinder.zoom + 1 } () = JVal.num 4 := by
    show JVal.num ((3 : ℚ) + 1) = JVal.num 4
    norm_num
  have h := (compositePopulatePaintArray_correct Unit compositeNumBinder 2 ()).1 3 4
    (by decide) rfl hmax4
  refine ⟨?_, ?_⟩
  · rw [h.1]; rfl
  · rw [h.2]; decide

/-- Claim C3: SourceExpressionBinder.populatePaintArray on a numeric binder
with an empty array appends exactly N entries, all equal to the value
evaluated at {zoom: 0}, and statistics.max becomes the maximum of its previous
value and that value. -/
theorem sourcePopulatePaintArray_correct (F : Type) (b : SourceExpressionBinder F)
    (n : ℕ) (feature : F) (v : ℚ)
    (hempty : b.paintVertexArray = [])
    (hty : b.type ≠ "color")
    (hval : b.expression { zoom := 0 } feature = .num v) :
    (b.populatePaintArray n feature).paintVertexArray = List.replicate n [v] ∧
    (b.populatePaintArray n feature).statisticsMax =
      max b.statisticsMax ((v : ℚ) : WithBot ℚ) := by
  simp only [SourceExpressionBinder.populatePaintArray, hval, if_neg hty, JVal.toNum, hempty,
    List.length_nil, Nat.sub_zero, List.nil_append]
  constructor <;> trivial

/-- Claim C3, witness: populating 3 vertices of a fresh numeric source binder
evaluating to 5. -/
theorem sourcePopulatePaintArray_correct_witness :
    (sourceEmptyBinder.populatePaintArray 3 ()).paintVertexArray = [[5], [5], [5]] ∧
    (sourceEmptyBinder.populatePaintArray 3 ()).statisticsMax = ((5 : ℚ) : WithBot ℚ) := by
  have h := sourcePopulatePaintArray_correct Unit sourceEmptyBinder 3 () 5 rfl (by decide) rfl
  refine ⟨?_, ?_⟩
  · rw [h.1]; rfl
  · rw [h.2]; decide

/-- Claim C6: for a color whose four channels are k/255 with integer k in
[0,255], the two floats returned by packColor decompose (value / 256,
value % 256) back into the original channel values, (r,g) for the first float
and (b,a) for the second. -/
theorem packColor_roundtrip (kr kg kb ka : ℤ)
    (hr : 0 ≤ kr ∧ kr ≤ 255) (hg : 0 ≤ kg ∧ kg ≤ 255)
    (hb : 0 ≤ kb ∧ kb ≤ 255) (ha : 0 ≤ ka ∧ ka ≤ 255) :
    decodeChannels (packColor (Color.mk ((kr : ℚ) / 255) ((kg : ℚ) / 255)
      ((kb : ℚ) / 255) ((ka : ℚ) / 255))).1 = (kr, kg) ∧
    decodeChannels (packColor (Color.mk ((kr : ℚ) / 255) ((kg : ℚ) / 255)
      ((kb : ℚ) / 255) ((ka : ℚ) / 255))).2 = (kb, ka) := by
  have key : ∀ k : ℤ, 0 ≤ k → k ≤ 255 → clampUint8 (255 * ((k : ℚ) / 255)) = k := by
    intro k h0 h1
    have hk : (255 : ℚ) * ((k : ℚ) / 255) = (k : ℚ) := by
      field_simp
    rw [clampUint8, hk, Int.floor_intCast]
    omega
  have pack : ∀ k1 k2 : ℤ, 0 ≤ k1 → k1 ≤ 255 → 0 ≤ k2 → k2 ≤ 255 →
      decodeChannels (packUint8ToFloat (255 * ((k1 : ℚ) / 255)) (255 * ((k2 : ℚ) / 255))) =
        (k1, k2) := by
    intro k1 k2 a1 a2 b1 b2
    rw [packUint8ToFloat, key k1 a1 a2, key k2 b1 b2, decodeChannels, Int.floor_intCast]
    have h1 : (256 * k1 + k2) / 256 = k1 := by omega
    have h2 : (256 * k1 + k2) % 256 = k2 := by omega
    rw [h1, h2]
  exact ⟨pack kr kg hr.1 hr.2 hg.1 hg.2, pack kb ka hb.1 hb.2 ha.1 ha.2⟩

/-- Claim C6, witness: channel values 12, 34, 56, 78. -/
theorem packColor_roundtrip_witness :
    decodeChannels (packColor (Color.mk (((12 : ℤ) : ℚ) / 255) (((34 : ℤ) : ℚ) / 255)
      (((56 : ℤ) : ℚ) / 255) (((78 : ℤ) : ℚ) / 255))).1 = (12, 34) ∧
    decodeChannels (packColor (Color.mk (((12 : ℤ) : ℚ) / 255) (((34 : ℤ) : ℚ) / 255)
      (((56 : ℤ) : ℚ) / 255) (((78 : ℤ) : ℚ) / 255))).2 = (56, 78) :=
  packColor_roundtrip 12 34 56 78 (by norm_num) (by norm_num) (by norm_num) (by norm_num)

/-- Claim C7: interpolationFactor delegates to the expression with the floored
current zoom when useIntegerZoom is set and with the raw current zoom
otherwise, always bracketed by [zoom, zoom + 1]; in particular with
currentZoom = 14.7 and zoom = 14 the expression is consulted at 14, not
14.7. -/
theorem interpolationFactor_correct (F : Type) (b : CompositeExpressionBinder F)
    (currentZoom : ℚ) :
    (b.useIntegerZoom = true →
      b.interpolationFactor currentZoom =
        b.expression.interpolationFactor ((⌊currentZoom⌋ : ℤ) : ℚ) b.zoom (b.zoom + 1)) ∧
    (b.useIntegerZoom = false →
      b.interpolationFactor currentZoom =
        b.expression.interpolationFactor currentZoom b.zoom (b.zoom + 1)) ∧
    (b.useIntegerZoom = true → b.zoom = 14 →
      b.interpolationFactor (147 / 10) = b.expression.interpolationFactor 14 14 15) := by
  refine ⟨fun h => ?_, fun h => ?_, fun h hz => ?_⟩
  · simp [CompositeExpressionBinder.interpolationFactor, h]
  · simp [CompositeExpressionBinder.interpolationFactor, h]
  · have hfloor : ⌊(147 / 10 : ℚ)⌋ = 14 := by
      norm_num [Int.floor_eq_iff]
    simp only [CompositeExpressionBinder.interpolationFactor, h, if_true, hz, hfloor]
    norm_num

/-- Claim C7, witness: useIntegerZoom = true, zoom = 14, currentZoom = 14.7,
with the linear interpolation factor, gives factor 0 (computed at 14, not at
14.7, which would give 7/10). -/
theorem interpolationFactor_correct_witness :
    compositeIntZoomBinder.interpolationFactor (147 / 10) = 0 := by
  have h := (interpolationFactor_correct Unit compositeIntZoomBinder (147 / 10)).2.2 rfl rfl
  rw [h]
  norm_num [compositeIntZoomBinder, mkCompositeExpressionBinder]

/-- Claim C10: setUniforms on a SourceExpressionBinder or a
CompositeExpressionBinder performs exactly one uniform write, keyed
"a_" ++ names[0] ++ "_t" using only the first entry of names, with value 0 for
the source kind and interpolationFactor(globals.zoom) for the composite
kind. -/
theorem setUniforms_single_write (F : Type) (sb : SourceExpressionBinder F)
    (cb : CompositeExpressionBinder F) (globals : GlobalProperties)
    (n m : String) (rest1 rest2 : List String)
    (h1 : sb.names = n :: rest1) (h2 : cb.names = m :: rest2) :
    sb.setUniforms = [("a_" ++ n ++ "_t", UniformValue.f1 0)] ∧
    cb.setUniforms globals =
      [("a_" ++ m ++ "_t", UniformValue.f1 (cb.interpolationFactor globals.zoom))] := by
  constructor
  · simp [SourceExpressionBinder.setUniforms, h1]
  · simp [CompositeExpressionBinder.setUniforms, h2]

/-- Claim C10, witness: both binders have the three-entry line-pattern names
list; only the first entry is used for the single write. -/
theorem setUniforms_single_write_witness :
    sourcePatternBinder.setUniforms = [("a_pattern_a_t", UniformValue.f1 0)] ∧
    compositeIntZoomBinder.setUniforms { zoom := 147 / 10 } =
      [("a_pattern_a_t",
        UniformValue.f1 (compositeIntZoomBinder.interpolationFactor (147 / 10)))] := by
  have h := setUniforms_single_write Unit sourcePatternBinder compositeIntZoomBinder
    { zoom := 147 / 10 } "pattern_a" "pattern_a" ["pattern_b", "pattern_size"]
    ["pattern_b", "pattern_size"] rfl rfl
  exact h

/-! ### Helper lemmas for the statistics and destroy invariants -/

/-- Helper: upload and destroy never write statistics.max. -/
theorem applyOp_statisticsMax_of_not_populate (F : Type) (b : Binder F) (g : GpuState)
    (op : BinderOp F) (h : op.isPopulate = false) :
    (b.applyOp g op).1.statisticsMax = b.statisticsMax := by
  cases op with
  | populate l f => simp [BinderOp.isPopulate] at h
  | upload => cases b <;> rfl
  | destroy => rfl

/-- Helper: no operation changes which class a binder belongs to or its
declared type. -/
theorem applyOp_preserves_class (F : Type) (b : Binder F) (g : GpuState) (op : BinderOp F) :
    (b.applyOp g op).1.isConstantKind = b.isConstantKind ∧
    (b.applyOp g op).1.type = b.type := by
  cases op with
  | populate l f =>
    cases b with
    | constant c => exact ⟨rfl, rfl⟩
    | source s =>
      refine ⟨rfl, ?_⟩
      show (s.populatePaintArray l f).type = s.type
      by_cases hc : s.type = "color" <;>
        simp [SourceExpressionBinder.populatePaintArray, hc]
    | composite c =>
      refine ⟨rfl, ?_⟩
      show (c.populatePaintArray l f).type = c.type
      by_cases hc : c.type = "color" <;>
        simp [CompositeExpressionBinder.populatePaintArray, hc]
  | upload => cases b <;> exact ⟨rfl, rfl⟩
  | destroy => exact ⟨rfl, rfl⟩

/-- Helper: populatePaintArray leaves statistics.max unchanged on a
ConstantBinder (whose populatePaintArray is a no-op) and on any color-typed
binder (the color branch never touches statistics). -/
theorem populate_statisticsMax_constant_or_color (F : Type) (b : Binder F) (l : ℕ) (f : F)
    (h : b.isConstantKind = true ∨ b.type = "color") :
    (b.populatePaintArray l f).statisticsMax = b.statisticsMax := by
  cases b with
  | constant c => rfl
  | source s =>
    rcases h with h | h
    · simp [Binder.isConstantKind] at h
    · have hc : s.type = "color" := h
      show (s.populatePaintArray l f).statisticsMax = s.statisticsMax
      simp [SourceExpressionBinder.populatePaintArray, hc]
  | composite c =>
    rcases h with h | h
    · simp [Binder.isConstantKind] at h
    · have hc : c.type = "color" := h
      show (c.populatePaintArray l f).statisticsMax = c.statisticsMax
      simp [CompositeExpressionBinder.populatePaintArray, hc]

/-- Claim C8: statistics.max is -Infinity (⊥) at construction for all three
binder classes, and across every sequence of operations it is changed only by
populatePaintArray calls on a numeric-type (non-color) source or composite
binder: sequences without a populate call leave it unchanged on any binder,
and any sequence at all leaves it unchanged on a ConstantBinder or a
color-typed binder. -/
theorem statisticsMax_invariant (F : Type) :
    (∀ (v : JVal) (names : List String) (ty : String),
      (mkConstantBinder v names ty).statisticsMax = ⊥) ∧
    (∀ (e : GlobalProperties → F → JVal) (names : List String) (ty : String) (lay : Layout),
      (mkSourceExpressionBinder e names ty lay).statisticsMax = ⊥) ∧
    (∀ (e : CompositeExpression F) (names : List String) (ty : String) (uiz : Bool)
        (z : ℚ) (lay : Layout),
      (mkCompositeExpressionBinder e names ty uiz z lay).statisticsMax = ⊥) ∧
    (∀ (b : Binder F) (g : GpuState) (ops : List (BinderOp F)),
      ops.all (fun op => !op.isPopulate) = true →
      (b.applyOps g ops).1.statisticsMax = b.statisticsMax) ∧
    (∀ (b : Binder F) (g : GpuState) (ops : List (BinderOp F)),
      b.isConstantKind = true ∨ b.type = "color" →
      (b.applyOps g ops).1.statisticsMax = b.statisticsMax) := by
  refine ⟨fun _ _ _ => rfl, fun _ _ _ _ => rfl, fun _ _ _ _ _ _ => rfl, ?_, ?_⟩
  · intro b g ops
    induction ops generalizing b g with
    | nil => intro _; rfl
    | cons op rest ih =>
      intro h
      rw [List.all_cons, Bool.and_eq_true] at h
      have hop : op.isPopulate = false := by
        simpa using h.1
      show ((b.applyOp g op).1.applyOps (b.applyOp g op).2 rest).1.statisticsMax = _
      rw [ih _ _ h.2, applyOp_statisticsMax_of_not_populate F b g op hop]
  · intro b g ops
    induction ops generalizing b g with
    | nil => intro _; rfl
    | cons op rest ih =>
      intro h
      have hpres := applyOp_preserves_class F b g op
      have hnext : (b.applyOp g op).1.isConstantKind = true ∨
          (b.applyOp g op).1.type = "color" := by
        rcases h with h | h
        · exact Or.inl (by rw [hpres.1, h])
        · exact Or.inr (by rw [hpres.2, h])
      show ((b.applyOp g op).1.applyOps (b.applyOp g op).2 rest).1.statisticsMax = _
      rw [ih _ _ hnext]
      cases op with
      | populate l f => exact populate_statisticsMax_constant_or_color F b l f h
      | upload => exact applyOp_statisticsMax_of_not_populate F b g .upload rfl
      | destroy => rfl

/-- Claim C8, witness: an upload-destroy sequence on a numeric source binder
and a populate on a constant binder both leave statistics.max at ⊥. -/
theorem statisticsMax_invariant_witness :
    ((Binder.source sourceEmptyBinder).applyOps gpu0
      [BinderOp.upload, BinderOp.destroy]).1.statisticsMax = ⊥ ∧
    ((Binder.constant (mkConstantBinder (JVal.num 1) ["width"] "number")).applyOps gpu0
      [BinderOp.populate 5 ()]).1.statisticsMax = ⊥ := by
  constructor
  · have h := (statisticsMax_invariant Unit).2.2.2.1 (Binder.source sourceEmptyBinder) gpu0
      [BinderOp.upload, BinderOp.destroy] rfl
    rw [h]; rfl
  · have h := (statisticsMax_invariant Unit).2.2.2.2
      (Binder.constant (mkConstantBinder (JVal.num 1) ["width"] "number")) gpu0
      [BinderOp.populate 5 ()] (Or.inl rfl)
    rw [h]; rfl

/-- Helper: a binder with no GPU buffer leaves the GPU state untouched on
destroy. -/
theorem binder_destroy_noop (F : Type) (b : Binder F) (g : GpuState)
    (h : b.paintVertexBufferOpt = none) : b.destroy g = g := by
  cases b with
  | constant c => rfl
  | source s =>
    have hs : s.paintVertexBuffer = none := h
    show SourceExpressionBinder.destroy s g = g
    simp [SourceExpressionBinder.destroy, hs]
  | composite c =>
    have hc : c.paintVertexBuffer = none := h
    show CompositeExpressionBinder.destroy c g = g
    simp [CompositeExpressionBinder.destroy, hc]

/-- Helper: folding destroy over binders without buffers is the identity. -/
theorem destroy_foldl_noop (F : Type) (l : List (String × Binder F)) (g : GpuState)
    (h : ∀ entry ∈ l, Binder.paintVertexBufferOpt entry.2 = none) :
    l.foldl (fun acc entry => entry.2.destroy acc) g = g := by
  induction l generalizing g with
  | nil => rfl
  | cons e rest ih =>
    rw [List.foldl_cons, binder_destroy_noop F e.2 g (h e (List.mem_cons_self _ _))]
    exact ih g (fun x hx => h x (List.mem_cons_of_mem _ hx))

/-- Claim C9: destroying a ProgramConfiguration none of whose binders holds a
GPU vertex buffer (the state of every configuration on which upload was never
called) raises no error and releases no buffer: the GPU state is returned
unchanged, because each binder's destroy releases its buffer only when one
exists. -/
theorem destroy_before_upload_safe (F : Type) (pc : ProgramConfiguration F) (g : GpuState)
    (h : ∀ entry ∈ pc.binders, Binder.paintVertexBufferOpt entry.2 = none) :
    pc.destroy g = g :=
  destroy_foldl_noop F pc.binders g h

/-- A configuration holding one constant binder and one freshly constructed
source binder, neither of which has been uploaded. -/
def mixedFreshConfig : ProgramConfiguration Unit :=
  { binders :=
      [("line-width", Binder.constant (mkConstantBinder (JVal.num 1) ["width"] "number")),
        ("line-blur", Binder.source sourceEmptyBinder)],
    cacheKey := "/a_line-blur/u_line-width" }

/-- Claim C9, witness: destroying the never-uploaded two-binder configuration
leaves the GPU state exactly as it was. -/
theorem destroy_before_upload_safe_witness : mixedFreshConfig.destroy gpu0 = gpu0 := by
  refine destroy_before_upload_safe Unit mixedFreshConfig gpu0 ?_
  intro entry he
  simp only [mixedFreshConfig, List.mem_cons, List.not_mem_nil, or_false] at he
  rcases he with rfl | rfl <;> rfl

end MapboxGL


